import Mathlib

/-!
Verification of the top-users caching server (`src/server.js`).

The server aggregates "top users by post count" from an upstream social API,
memoizes JSON responses in Redis with per-credential cache keys, and keeps a
leaderboard in the Redis sorted set `"user_post_counts"`.

Shallow embedding conventions:
* The upstream API is a pair of oracles (`Upstream`): the `/users` mapping and
  the per-user post lists; `none` models a failed HTTP call, which the client
  functions `fetchAllUsers` / `fetchUserPosts` normalize to an empty result
  (server.js lines 79-97).
* The Redis store is a TTL key/value table (values are the cached `/users`
  payloads; JSON serialization is a faithful round trip on these values, so
  the stored value is the payload itself) plus the single sorted set
  `"user_post_counts"` as an association list from member to score. The
  ioredis client returns raw Redis replies, so
  `zrevrange s 0 4 WITHSCORES` yields a FLAT array of strings alternating
  member, score (sorted by descending score, ties in reverse lexicographic
  member order); `zrevrangeTop5Flat` models that reply, and the handler
  model reproduces the JS destructuring of those strings at server.js line
  124, including the `undefined` and `NaN` values it produces. The pair
  view `zrevrangeTop5` is kept only as the adapter contract the spec
  states, feeding the spec-side `specLeaderboard`.
* The global mutable `useRedis` flag (server.js lines 17-38) is passed
  explicitly; its writes are modelled by `applyStoreEvent`.
* Time is an abstract `Nat` tick; a key written at time `t` with TTL `ttl`
  is visible to `get` at times `t2 < t + ttl`.
* All functions are total: upstream and store failures are values, matching
  the catch-and-degrade style of the code, so no exception escapes a handler.
-/

namespace Server

/-- One entry of the `/users` response payload:
`{ user_id, name, post_count }` (server.js line 124). `user_id` is
optional because the JS destructuring can produce `undefined` (a field
JSON omits); `post_count` is optional because `parseInt` can produce
`NaN`, which `res.json` serializes as `null`. -/
structure Entry where
  user_id : Option String
  name : String
  post_count : Option Int
deriving Repr, DecidableEq

/-- The upstream social API as oracles. `users` is the result of
`GET /users` (`none` = request fails), yielding the id-to-name mapping;
`posts uid` is the result of `GET /users/{uid}/posts` for each user id. -/
structure Upstream where
  users : Option (List (String × String))
  posts : String → Option (List String)

/-- Upstream client call `fetchAllUsers` (server.js lines 79-87):
returns the user mapping, or the empty mapping on any error. -/
def fetchAllUsers (up : Upstream) : List (String × String) :=
  up.users.getD []

/-- Upstream client call `fetchUserPosts` (server.js lines 89-97):
returns the post list of the user, or the empty list on any error. -/
def fetchUserPosts (up : Upstream) (uid : String) : List String :=
  (up.posts uid).getD []

/-- The Redis store visible to this program: the TTL key/value table used by
the response-cache middleware (each entry is key, cached payload, expiry
time) and the sorted set `"user_post_counts"` (member, score pairs,
at most one score per member). -/
structure Store where
  kv : List (String × List Entry × Nat)
  zset : List (String × Int)
deriving Repr, DecidableEq

/-- The empty store: cold cache, empty leaderboard. -/
def storeEmpty : Store := ⟨[], []⟩

/-- `redis.get key` at time `t`: the stored value if the key is present and
unexpired, otherwise absent. -/
def kvGet (t : Nat) (k : String) : List (String × List Entry × Nat) → Option (List Entry)
  | [] => none
  | (k2, v, e) :: rest => if k2 = k then (if t < e then some v else none) else kvGet t k rest

/-- `ZADD` on the member/score association list: overwrite the score of an
existing member, append otherwise (the sorted set holds at most one score
per member). -/
def zadd (m : String) (s : Int) : List (String × Int) → List (String × Int)
  | [] => [(m, s)]
  | (m2, s2) :: rest => if m2 = m then (m2, s) :: rest else (m2, s2) :: zadd m s rest

/-- Score lookup in the sorted set. -/
def lookupScore (m : String) : List (String × Int) → Option Int
  | [] => none
  | (m2, s) :: rest => if m2 = m then some s else lookupScore m rest

/-- `ZREVRANGE` ordering: higher score first; for equal scores Redis returns
reverse lexicographic member order. -/
def zBefore (a b : String × Int) : Bool :=
  decide (b.2 < a.2) || (decide (a.2 = b.2) && decide (b.1 < a.1))

/-- Insertion step of the descending sort. -/
def zInsert (x : String × Int) : List (String × Int) → List (String × Int)
  | [] => [x]
  | y :: ys => if zBefore x y then x :: y :: ys else y :: zInsert x ys

/-- Sort the sorted-set members in `ZREVRANGE` order (insertion sort). -/
def zSortDesc (l : List (String × Int)) : List (String × Int) :=
  l.foldr zInsert []

/-- The top five member/score pairs by descending score: the sorted-set
range as the spec words the adapter contract (section 4.1, "ordered
sequence of (member, score)"). Used by the spec-side leaderboard; the
reply the program actually receives is `zrevrangeTop5Flat`. -/
def zrevrangeTop5 (z : List (String × Int)) : List (String × Int) :=
  (zSortDesc z).take 5

/-- `redis.zrevrange "user_post_counts" 0 4 WITHSCORES` as ioredis returns
it (server.js lines 120 and 122): a flat array of strings alternating
member and score, scores rendered in decimal. -/
def zrevrangeTop5Flat (z : List (String × Int)) : List String :=
  (zrevrangeTop5 z).flatMap (fun p => [p.1, toString p.2])

/-- JS array destructuring `[a, b]` applied to a string (server.js line
124 destructures each flat reply element): the first two characters as
one-character strings; a missing position is `undefined`, modelled as
`none`. -/
def jsDestructPair (s : String) : Option String × Option String :=
  match s.data with
  | [] => (none, none)
  | [c] => (some (String.mk [c]), none)
  | c :: c2 :: _ => (some (String.mk [c]), some (String.mk [c2]))

/-- Decimal value of a leading digit run. -/
def jsParseIntAux : List Char → Nat → Nat
  | [], acc => acc
  | c :: rest, acc =>
    if c.isDigit then jsParseIntAux rest (acc * 10 + (c.toNat - 48)) else acc

/-- JS `parseInt` on the values flowing into it here: `undefined` or a
string without a leading digit gives `NaN` (modelled `none`); otherwise
the value of the leading digit run. The strings reaching it are never
signed or padded, so this covers their JS behavior. -/
def jsParseInt (s? : Option String) : Option Int :=
  match s? with
  | none => none
  | some s =>
    match s.data with
    | [] => none
    | c :: _ => if c.isDigit then some ((jsParseIntAux s.data 0 : Nat) : Int) else none

/-- JS `string.slice(-6)`: the last six characters, or the whole string when
shorter. -/
def jsSliceLast6 (s : String) : String :=
  String.mk (s.data.drop (s.data.length - 6))

/-- Credential fingerprint (server.js line 60): the last six characters of
the access token; the empty slice is falsy in JS and yields "default". -/
def credFingerprint (token : String) : String :=
  if jsSliceLast6 token = "" then "default" else jsSliceLast6 token

/-- Cache key computed by the middleware (server.js line 60):
logical key, underscore, credential fingerprint. -/
def cacheKeyFor (logicalKey token : String) : String :=
  logicalKey ++ "_" ++ credFingerprint token

/-- Upstream call counts made while serving one request: calls to
`fetchAllUsers` and calls to `fetchUserPosts`. -/
structure Calls where
  allUsers : Nat
  posts : Nat
deriving Repr, DecidableEq

/-- Per-member writes of the refresher pipeline (server.js lines 104-109):
for each user id, in order, `fetchUserPosts` then queue
`zadd "user_post_counts" posts.length userId`; `pipeline.exec` applies the
queued adds in order. -/
def zaddList (up : Upstream) : List String → List (String × Int) → List (String × Int)
  | [], z => z
  | i :: rest, z => zaddList up rest (zadd i ((fetchUserPosts up i).length : Int) z)

/-- `updateUserPostCounts` (server.js lines 99-114): fetch the user mapping;
when the store is enabled, fetch the posts of each user and batch-write the counts
into the sorted set. When the store is disabled the per-user loop is skipped
entirely (no post fetches, no writes). Errors are caught and logged, so the
function is total and never throws to its caller. -/
def updateUserPostCounts (up : Upstream) (useRedis : Bool) (st : Store) : Store × Calls :=
  let users := fetchAllUsers up
  let userIds := users.map Prod.fst
  if useRedis then
    ({ st with zset := zaddList up userIds st.zset }, ⟨1, userIds.length⟩)
  else
    (st, ⟨1, 0⟩)

/-- JS `users[userId] || "Unknown"` (server.js line 124): an absent key or a
falsy (empty-string) name yields "Unknown". -/
def jsOrDefault (v : Option String) : String :=
  match v with
  | some s => if s = "" then "Unknown" else s
  | none => "Unknown"

/-- JS object lookup `users[userId]` on the id-to-name mapping. -/
def lookupName (uid : String) : List (String × String) → Option String
  | [] => none
  | (k, v) :: rest => if k = uid then some v else lookupName uid rest

/-- The inner `GET /users` handler (server.js lines 118-129): read the
flat WITHSCORES reply from the sorted set (empty array when the store is
disabled); if that read is empty run a full refresh; re-read when the
store is enabled; fetch the user mapping; then map line 124 over the FLAT
string array, destructuring each string element into its first two
characters: `user_id` is the first character (or `undefined`), the name
join looks up that character (an `undefined` key is coerced by JS to the
string "undefined"), and `post_count` is `parseInt` of the second
character (`NaN` when absent or not a digit). Returns the response
payload, the updated store, and the upstream call counts. -/
def topUsersHandler (up : Upstream) (useRedis : Bool) (st : Store) :
    List Entry × Store × Calls :=
  let topUsers1 := if useRedis then zrevrangeTop5Flat st.zset else []
  let refreshed := if topUsers1.isEmpty then updateUserPostCounts up useRedis st
    else (st, ⟨0, 0⟩)
  let topUsers2 := if useRedis then zrevrangeTop5Flat refreshed.1.zset else topUsers1
  let users := fetchAllUsers up
  (topUsers2.map (fun s =>
     ⟨(jsDestructPair s).1,
      jsOrDefault (lookupName ((jsDestructPair s).1.getD "undefined") users),
      jsParseInt (jsDestructPair s).2⟩),
   refreshed.1, ⟨refreshed.2.allUsers + 1, refreshed.2.posts⟩)

/-- Outcome of one request through the cache middleware: the JSON payload
sent to the client, the resulting store, the upstream calls made, and
whether the wrapped handler ran. -/
structure ReqOutcome where
  response : List Entry
  store : Store
  calls : Calls
  handlerRan : Bool
deriving Repr, DecidableEq

/-- The response-cache middleware `cache(key, ttl)` (server.js lines 59-77),
generic in the wrapped handler. Compute the per-credential cache key; when
the store is enabled and `get` hits, return the cached payload without
invoking the handler; otherwise run the handler and, when the store is
enabled, write its payload with the given TTL before sending it unchanged. -/
def cacheMiddleware (logicalKey token : String) (ttl t : Nat)
    (handler : Bool → Store → List Entry × Store × Calls)
    (useRedis : Bool) (st : Store) : ReqOutcome :=
  let cacheKey := cacheKeyFor logicalKey token
  let cachedData := if useRedis then kvGet t cacheKey st.kv else none
  match cachedData with
  | some v => ⟨v, st, ⟨0, 0⟩, false⟩
  | none =>
    let hres := handler useRedis st
    let st2 := if useRedis then
        { hres.2.1 with kv := (cacheKey, hres.1, t + ttl) :: hres.2.1.kv }
      else hres.2.1
    ⟨hres.1, st2, hres.2.2, true⟩

/-- One full `GET /users` request (server.js line 118): the rate limiter is a
no-op, then the cache middleware with logical key "top_users" wraps the
top-users handler. -/
def getUsersRequest (up : Upstream) (token : String) (ttl t : Nat)
    (useRedis : Bool) (st : Store) : ReqOutcome :=
  cacheMiddleware "top_users" token ttl t (topUsersHandler up) useRedis st

/-- The `redis_status` field of `GET /health` (server.js line 135). -/
def redisStatus (useRedis : Bool) : String :=
  if useRedis then "connected" else "disabled"

/-- The events that write the `useRedis` flag after its initialization:
the `redis.on("error")` handler (server.js line 33) and the constructor
catch block (line 37). These are the only assignments to `useRedis` in the
program besides the initializer. -/
inductive StoreEvent where
  | redisError
  | initFailure
deriving Repr, DecidableEq

/-- Effect of a store event on the `useRedis` flag: both events set it to
false; no event sets it to true. -/
def applyStoreEvent (_flag : Bool) (e : StoreEvent) : Bool :=
  match e with
  | .redisError => false
  | .initFailure => false

/-- Fold a sequence of store events over the flag. -/
def runStoreEvents (flag : Bool) : List StoreEvent → Bool
  | [] => flag
  | e :: es => runStoreEvents (applyStoreEvent flag e) es

/-- Initial value of `useRedis` (server.js line 18). -/
def useRedisInit : Bool := true

/-- The leaderboard as the spec describes it (spec sections 4.4 and 8),
written from the words of the spec for comparison with the code: compute
the post count of every user directly from upstream truth, rank the top
five by descending count, and join with display names; every entry has a
present user id and an integer post count. -/
def specLeaderboard (up : Upstream) : List Entry :=
  let users := fetchAllUsers up
  let scored := users.map (fun p => (p.1, ((fetchUserPosts up p.1).length : Int)))
  (zrevrangeTop5 scored).map
    (fun p => ⟨some p.1, jsOrDefault (lookupName p.1 users), some p.2⟩)

/-- Concrete upstream of the scenario from the spec: users 1 (Alice, three
posts) and 2 (Bob, one post). -/
def upDemo : Upstream :=
  ⟨some [("1", "Alice"), ("2", "Bob")],
   fun uid => if uid = "1" then some ["a", "b", "c"]
     else if uid = "2" then some ["d"] else none⟩

/-- Concrete upstream with one user who has one post. -/
def upOneUser : Upstream :=
  ⟨some [("1", "Alice")], fun uid => if uid = "1" then some ["p"] else none⟩

/-- Concrete upstream whose `/users` call fails. -/
def upFail : Upstream := ⟨none, fun _ => none⟩

/-- Concrete upstream with three users (three, one and two posts), giving
a sorted set with three members. -/
def upTriple : Upstream :=
  ⟨some [("1", "Alice"), ("2", "Bob"), ("3", "Carol")],
   fun uid => if uid = "1" then some ["a", "b", "c"]
     else if uid = "2" then some ["d"]
     else if uid = "3" then some ["e", "f"] else none⟩

/-- A concrete response entry. -/
def entryDemo : Entry := ⟨some "1", "Alice", some 3⟩

/-- A concrete store holding a cached `/users` payload for the credential
"token1" that is unexpired at time 0. -/
def stHit : Store := ⟨[("top_users_token1", [entryDemo], 10)], []⟩

/-! Helper lemmas about the store primitives. -/

/-- Looking up the member just added returns the added score. -/
theorem lookupScore_zadd_self (m : String) (s : Int) :
    ∀ z : List (String × Int), lookupScore m (zadd m s z) = some s := by
  intro z
  induction z with
  | nil => simp [zadd, lookupScore]
  | cons y ys ih =>
    simp only [zadd]
    split
    · simp only [lookupScore]
      rename_i h
      rw [if_pos h]
    · simp only [lookupScore]
      rename_i h
      rw [if_neg h, ih]

/-- Adding another member leaves a lookup unchanged. -/
theorem lookupScore_zadd_other (m m2 : String) (s : Int) (h : m2 ≠ m) :
    ∀ z : List (String × Int), lookupScore m (zadd m2 s z) = lookupScore m z := by
  intro z
  induction z with
  | nil => simp [zadd, lookupScore, h]
  | cons y ys ih =>
    simp only [zadd]
    split
    · rename_i hy
      simp only [lookupScore, hy]
      rw [if_neg h, if_neg (hy ▸ h)]
    · simp only [lookupScore]
      split
      · rfl
      · exact ih

/-- Effect of the batched refresh writes on a single member: an id in the
write list ends with the length of its fetched post list as score; other
members are untouched. -/
theorem lookupScore_zaddList (up : Upstream) (m : String) :
    ∀ (ids : List String) (z : List (String × Int)),
      lookupScore m (zaddList up ids z) =
        if m ∈ ids then some ((fetchUserPosts up m).length : Int)
        else lookupScore m z := by
  intro ids
  induction ids with
  | nil => intro z; simp [zaddList]
  | cons i rest ih =>
    intro z
    simp only [zaddList]
    rw [ih]
    by_cases hmem : m ∈ rest
    · rw [if_pos hmem, if_pos (List.mem_cons_of_mem _ hmem)]
    · rw [if_neg hmem]
      by_cases hmi : m = i
      · subst hmi
        rw [if_pos (List.mem_cons_self _ _), lookupScore_zadd_self]
      · rw [if_neg (by simp [hmi, hmem]), lookupScore_zadd_other m i _ (fun h => hmi h.symm)]

/-! Helper lemmas about the handler and middleware. -/

/-- With the store disabled, a full `GET /users` request responds with the
empty payload, leaves the store untouched, calls `fetchAllUsers` twice
(once in the refresh, once for the name join), fetches no posts, and runs
the wrapped handler. -/
theorem getUsers_disabled (up : Upstream) (token : String) (ttl t : Nat) (st : Store) :
    getUsersRequest up token ttl t false st = ⟨[], st, ⟨2, 0⟩, true⟩ := rfl

/-- Claim C1, evaluated at a failing input: the claim is false of the
code. With three users in the sorted set, the enabled endpoint maps line
124 over the FLAT WITHSCORES reply ["1","3","3","2","2","1"], producing
SIX entries (two per member, score strings included as members) whose
post_count is NaN (serialized null): more than 5 entries, and no entry
carries an integer post count >= 0. -/
theorem users_response_malformed :
    (getUsersRequest upTriple "token1" 60 0 true storeEmpty).response =
      [⟨some "1", "Alice", none⟩, ⟨some "3", "Carol", none⟩,
       ⟨some "3", "Carol", none⟩, ⟨some "2", "Bob", none⟩,
       ⟨some "2", "Bob", none⟩, ⟨some "1", "Alice", none⟩] ∧
    ¬ (getUsersRequest upTriple "token1" 60 0 true storeEmpty).response.length ≤ 5 ∧
    ∀ e ∈ (getUsersRequest upTriple "token1" 60 0 true storeEmpty).response,
      e.post_count = none := by decide

/-- Claim C3, evaluated at the exact scenario of the claim: the claim is
false of the code. With users 1 (Alice, three posts) and 2 (Bob, one
post), store enabled, leaderboard and cache empty, the response is the
garbled four-entry list obtained by destructuring the flat reply
["1","3","2","1"], not the two-entry leaderboard the claim (and the
spec-side definition) expects. -/
theorem scenario_two_users_garbled :
    (getUsersRequest upDemo "token1" 60 0 true storeEmpty).response =
      [⟨some "1", "Alice", none⟩, ⟨some "3", "Unknown", none⟩,
       ⟨some "2", "Bob", none⟩, ⟨some "1", "Alice", none⟩] ∧
    specLeaderboard upDemo =
      [⟨some "1", "Alice", some 3⟩, ⟨some "2", "Bob", some 1⟩] ∧
    (getUsersRequest upDemo "token1" 60 0 true storeEmpty).response
      ≠ specLeaderboard upDemo := by decide

/-- Claim C4: for every request through the response-cache middleware, if
the store is enabled and `get` of the cache key returns a stored value,
the middleware returns that value (deserialized) as the response and the
wrapped handler is never invoked on that request: the outcome is the
cached payload, an untouched store, zero upstream calls and
`handlerRan = false`. -/
theorem cache_hit_skips_handler (logicalKey token : String) (ttl t : Nat)
    (handler : Bool → Store → List Entry × Store × Calls) (st : Store)
    (v : List Entry)
    (h : kvGet t (cacheKeyFor logicalKey token) st.kv = some v) :
    cacheMiddleware logicalKey token ttl t handler true st = ⟨v, st, ⟨0, 0⟩, false⟩ := by
  simp [cacheMiddleware, h]

/-- Witness for C4: a concrete store with an unexpired cached payload is
served from the cache and the top-users handler does not run. -/
theorem cache_hit_skips_handler_witness :
    kvGet 0 (cacheKeyFor "top_users" "token1") stHit.kv = some [entryDemo] ∧
    cacheMiddleware "top_users" "token1" 60 0 (topUsersHandler upDemo) true stHit =
      ⟨[entryDemo], stHit, ⟨0, 0⟩, false⟩ :=
  ⟨by decide,
   cache_hit_skips_handler "top_users" "token1" 60 0 (topUsersHandler upDemo) stHit
     [entryDemo] (by decide)⟩

/-- Claim C5: two consecutive requests to the cached endpoint with the same
credential and unchanged upstream state, the first a cache miss whose write
happens at time t1 and the second within one TTL window of that write,
produce identical payloads, and the second request makes no upstream call
and never runs the handler. -/
theorem cache_idempotent (up : Upstream) (token : String) (ttl t1 t2 : Nat) (st : Store)
    (hmiss : kvGet t1 (cacheKeyFor "top_users" token) st.kv = none)
    (hwin : t2 < t1 + ttl) :
    (getUsersRequest up token ttl t2 true
        (getUsersRequest up token ttl t1 true st).store).response
      = (getUsersRequest up token ttl t1 true st).response ∧
    (getUsersRequest up token ttl t2 true
        (getUsersRequest up token ttl t1 true st).store).calls = ⟨0, 0⟩ ∧
    (getUsersRequest up token ttl t2 true
        (getUsersRequest up token ttl t1 true st).store).handlerRan = false := by
  have hreq : getUsersRequest up token ttl t1 true st =
      ⟨(topUsersHandler up true st).1,
       { (topUsersHandler up true st).2.1 with
         kv := (cacheKeyFor "top_users" token, (topUsersHandler up true st).1, t1 + ttl)
           :: (topUsersHandler up true st).2.1.kv },
       (topUsersHandler up true st).2.2, true⟩ := by
    simp [getUsersRequest, cacheMiddleware, hmiss]
  rw [hreq]
  have hhit : kvGet t2 (cacheKeyFor "top_users" token)
      ((cacheKeyFor "top_users" token, (topUsersHandler up true st).1, t1 + ttl)
        :: (topUsersHandler up true st).2.1.kv)
      = some (topUsersHandler up true st).1 := by
    simp [kvGet, hwin]
  simp [getUsersRequest, cacheMiddleware, hhit]

/-- Witness for C5: on a cold empty store, the second of two back-to-back
requests inside the 60-second TTL window makes zero upstream calls. -/
theorem cache_idempotent_witness :
    kvGet 0 (cacheKeyFor "top_users" "token1") storeEmpty.kv = none ∧
    (30 : Nat) < 0 + 60 ∧
    (getUsersRequest upDemo "token1" 60 30 true
        (getUsersRequest upDemo "token1" 60 0 true storeEmpty).store).calls = ⟨0, 0⟩ :=
  ⟨by decide, by decide,
   (cache_idempotent upDemo "token1" 60 0 30 storeEmpty (by decide) (by decide)).2.1⟩

/-- Claim C6: when fetching the full user mapping fails, the refresh writes
nothing: the store (in particular the sorted set) is returned exactly as it
was and only the one failed mapping fetch is made. The refresher is a total
function, so no exception reaches the client. -/
theorem refresh_noop_on_users_failure (up : Upstream) (b : Bool) (st : Store)
    (h : up.users = none) :
    updateUserPostCounts up b st = (st, ⟨1, 0⟩) := by
  cases b with
  | false => rfl
  | true =>
    show ({ st with zset := zaddList up ((fetchAllUsers up).map Prod.fst) st.zset },
        (⟨1, ((fetchAllUsers up).map Prod.fst).length⟩ : Calls)) = (st, ⟨1, 0⟩)
    rw [show fetchAllUsers up = [] from by simp [fetchAllUsers, h]]
    rfl

/-- Witness for C6: a concrete upstream whose user fetch fails leaves the
empty store empty. -/
theorem refresh_noop_on_users_failure_witness :
    upFail.users = none ∧
    updateUserPostCounts upFail true storeEmpty = (storeEmpty, ⟨1, 0⟩) :=
  ⟨rfl, refresh_noop_on_users_failure upFail true storeEmpty rfl⟩

/-- Claim C7: for every user id present in the fetched user mapping, the
refresh (store enabled) writes that user into the sorted set
"user_post_counts" with score equal to the length of the fetched post
list; in particular, when the posts fetch for that user fails the score
written is 0 via the empty list, and the refresh does not abort. -/
theorem refresh_writes_post_counts (up : Upstream) (uid nm : String) (st : Store)
    (h : (uid, nm) ∈ fetchAllUsers up) :
    lookupScore uid (updateUserPostCounts up true st).1.zset
      = some ((fetchUserPosts up uid).length : Int) ∧
    (up.posts uid = none →
      lookupScore uid (updateUserPostCounts up true st).1.zset = some 0) := by
  have hmem : uid ∈ (fetchAllUsers up).map Prod.fst :=
    List.mem_map.2 ⟨(uid, nm), h, rfl⟩
  have hmain : lookupScore uid (updateUserPostCounts up true st).1.zset
      = some ((fetchUserPosts up uid).length : Int) := by
    show lookupScore uid (zaddList up ((fetchAllUsers up).map Prod.fst) st.zset)
      = some ((fetchUserPosts up uid).length : Int)
    rw [lookupScore_zaddList, if_pos hmem]
  refine ⟨hmain, fun hfail => ?_⟩
  rw [hmain]
  simp [fetchUserPosts, hfail]

/-- Witness for C7: user 1 of the demo upstream ends with score 3, the
length of its post list. -/
theorem refresh_writes_post_counts_witness :
    ("1", "Alice") ∈ fetchAllUsers upDemo ∧
    lookupScore "1" (updateUserPostCounts upDemo true storeEmpty).1.zset = some 3 := by
  have h3 := (refresh_writes_post_counts upDemo "1" "Alice" storeEmpty (by decide)).1
  exact ⟨by decide, by rw [h3]; decide⟩

/-- Counterexample to claim C8 as stated: the tokens "aabcdef" and
"babcdef" are different bearer token values, yet they produce the same
cache key for the logical key "top_users", because only the last six
characters enter the fingerprint. -/
theorem cacheKey_collision :
    cacheKeyFor "top_users" "aabcdef" = cacheKeyFor "top_users" "babcdef" ∧
    ("aabcdef" : String) ≠ "babcdef" := by decide

/-- Claim C8 (amended): two bearer tokens whose credential fingerprints
(last-six-character slices) differ produce distinct cache keys for the
same logical key, so such credentials use distinct cache entries. -/
theorem cacheKeys_distinct (k t1 t2 : String)
    (h : credFingerprint t1 ≠ credFingerprint t2) :
    cacheKeyFor k t1 ≠ cacheKeyFor k t2 := by
  intro he
  apply h
  have hdata : (k ++ "_").data ++ (credFingerprint t1).data
      = (k ++ "_").data ++ (credFingerprint t2).data := by
    have hd := congrArg String.data he
    simpa [cacheKeyFor, String.data_append] using hd
  exact String.ext (List.append_cancel_left hdata)

/-- Witness for the amended C8: two concrete tokens with different
fingerprints get different cache keys. -/
theorem cacheKeys_distinct_witness :
    credFingerprint "abc" ≠ credFingerprint "xyz" ∧
    cacheKeyFor "top_users" "abc" ≠ cacheKeyFor "top_users" "xyz" :=
  ⟨by decide, cacheKeys_distinct "top_users" "abc" "xyz" (by decide)⟩

/-- Counterexample to claim C2 as stated: with the store disabled, an
upstream holding one user with one post, and any store content, GET /users
responds with the empty list, which is not the correct freshly computed
leaderboard (that leaderboard has one entry); the health answer does
report "disabled". -/
theorem users_disabled_not_correct :
    (getUsersRequest upOneUser "token1" 60 0 false storeEmpty).response = [] ∧
    specLeaderboard upOneUser = [⟨some "1", "Alice", some 1⟩] ∧
    (getUsersRequest upOneUser "token1" 60 0 false storeEmpty).response
      ≠ specLeaderboard upOneUser ∧
    redisStatus false = "disabled" := by decide

/-- Claim C2 (amended): while the store is in the disabled state, every
request to GET /users responds with the empty (degraded) leaderboard, not
a freshly computed one, and GET /health reports redis_status "disabled". -/
theorem users_disabled_degraded (up : Upstream) (token : String) (ttl t : Nat)
    (st : Store) :
    (getUsersRequest up token ttl t false st).response = [] ∧
    redisStatus false = "disabled" := by
  rw [getUsers_disabled]
  exact ⟨rfl, rfl⟩

/-- Claim C9: the store-enabled flag starts enabled; every event that
writes it (the redis error handler and the constructor failure path) sets
it to disabled; and once disabled no sequence of further events re-enables
it, so it stays disabled for the process lifetime. -/
theorem useRedis_one_way :
    useRedisInit = true ∧
    (∀ (flag : Bool) (e : StoreEvent), applyStoreEvent flag e = false) ∧
    (∀ es : List StoreEvent, runStoreEvents false es = false) := by
  refine ⟨rfl, fun flag e => by cases e <;> rfl, fun es => ?_⟩
  induction es with
  | nil => rfl
  | cons e es ih => cases e <;> simpa [runStoreEvents, applyStoreEvent] using ih

/-- Claim C10: whenever the store-disabled flag is set, every GET /users
request responds with the empty JSON array and leaves the store untouched,
and the refresh it triggers makes exactly one user-mapping fetch, no
per-user post fetches, and no sorted-set writes. -/
theorem users_disabled_empty_refresh_skips (up : Upstream) (token : String)
    (ttl t : Nat) (st : Store) :
    (getUsersRequest up token ttl t false st).response = [] ∧
    (getUsersRequest up token ttl t false st).store = st ∧
    (updateUserPostCounts up false st).1 = st ∧
    (updateUserPostCounts up false st).2 = ⟨1, 0⟩ := by
  rw [getUsers_disabled]
  exact ⟨rfl, rfl, rfl, rfl⟩

end Server
